import Mathlib

/-!
Verification of the UWB warehouse positioning core: the stochastic range
measurement model (simulation/uwb_sensor_model.py) and the trilateration
position estimator (uwb/trilateration.py).

Floating-point numbers are modelled by an arbitrary linear ordered field;
witnesses instantiate it with the rationals, theorems that need a genuine
square root instantiate it with the reals.  The square-root function
(math.sqrt / np.linalg.norm) and the external optimizer
(scipy.optimize.minimize) are passed as explicit parameters, and the random
draws (np.random.random, np.random.normal) are explicit arguments, so that
the embedded control flow is exactly the Python control flow.
-/

set_option autoImplicit false

namespace Warehouse

variable {α : Type} [LinearOrderedField α]

/-! ### Range measurement source: simulation/uwb_sensor_model.py -/

/-- State of one UWB sensor, mirroring the fields set in
UWBSensor.__init__ of simulation/uwb_sensor_model.py (the string id is
irrelevant to the dynamics and omitted).  The mutable state is
last_measurement_time, initialised to 0.0. -/
structure UWBSensor (α : Type) where
  position : α × α × α
  range_noise_std : α
  max_range : α
  detection_probability : α
  update_rate : α
  last_measurement_time : α
  deriving DecidableEq

/-- UWBSensor.__init__: every freshly constructed sensor has
last_measurement_time = 0.0. -/
def UWBSensor.init (position : α × α × α) (range_noise_std max_range
    detection_probability update_rate : α) : UWBSensor α :=
  { position := position
    range_noise_std := range_noise_std
    max_range := max_range
    detection_probability := detection_probability
    update_rate := update_rate
    last_measurement_time := 0 }

/-- UWBSensor.measure_distance of simulation/uwb_sensor_model.py, lines
58-87, as explicit state passing: the result is the returned
Optional[float] together with the sensor state after the call.
sqrt embeds math.sqrt; u embeds the draw np.random.random() and noise the
draw np.random.normal(0, range_noise_std).  The Python statement order is
kept: the rate gate is checked first, then last_measurement_time is
assigned, and only then the range cutoff and the detection trial run. -/
def UWBSensor.measure_distance (sqrt : α → α) (s : UWBSensor α)
    (target_position : α × α × α) (current_time : α) (u : α) (noise : α) :
    Option α × UWBSensor α :=
  if current_time - s.last_measurement_time < 1 / s.update_rate then
    (none, s)
  else
    let s' := { s with last_measurement_time := current_time }
    let dx := target_position.1 - s.position.1
    let dy := target_position.2.1 - s.position.2.1
    let dz := target_position.2.2 - s.position.2.2
    let true_distance := sqrt (dx ^ 2 + dy ^ 2 + dz ^ 2)
    if true_distance > s.max_range then
      (none, s')
    else if u > s.detection_probability then
      (none, s')
    else
      (some (max 0 (true_distance + noise)), s')

/-! ### Position estimator: uwb/trilateration.py

Vectors are triples, 3x3 matrices carry nine named entries.  The external
solver np.linalg.lstsq and the external optimizer scipy.optimize.minimize
are the only parts not written out in the Python file; lstsq is modelled
below by lstsq3 (the minimum-norm least-squares solution, which is what
np.linalg.lstsq(A, b, rcond=None) returns, and which never fails on
rank-deficient input), and the optimizer is an explicit functional
parameter returning a success flag and an iterate, mirroring
scipy.optimize.OptimizeResult. -/

/-- Result record of the external optimizer: OptimizeResult.success and
OptimizeResult.x. -/
structure OptResult (α : Type) where
  success : Bool
  x : α × α × α

/-- A 3x3 matrix with named entries, row major. -/
structure Mat3 (α : Type) where
  a11 : α
  a12 : α
  a13 : α
  a21 : α
  a22 : α
  a23 : α
  a31 : α
  a32 : α
  a33 : α
  deriving DecidableEq

/-- Determinant of a 3x3 matrix by cofactor expansion along the first row. -/
def Mat3.det (M : Mat3 α) : α :=
  M.a11 * (M.a22 * M.a33 - M.a23 * M.a32)
    - M.a12 * (M.a21 * M.a33 - M.a23 * M.a31)
    + M.a13 * (M.a21 * M.a32 - M.a22 * M.a31)

/-- Matrix-vector product. -/
def Mat3.mulVec (M : Mat3 α) (v : α × α × α) : α × α × α :=
  (M.a11 * v.1 + M.a12 * v.2.1 + M.a13 * v.2.2,
   M.a21 * v.1 + M.a22 * v.2.1 + M.a23 * v.2.2,
   M.a31 * v.1 + M.a32 * v.2.1 + M.a33 * v.2.2)

/-- Solution of M x = c by Cramer's rule (meaningful when M.det is
nonzero). -/
def Mat3.cramer (M : Mat3 α) (c : α × α × α) : α × α × α :=
  let d := M.det
  ((Mat3.det ⟨c.1, M.a12, M.a13, c.2.1, M.a22, M.a23, c.2.2, M.a32, M.a33⟩) / d,
   (Mat3.det ⟨M.a11, c.1, M.a13, M.a21, c.2.1, M.a23, M.a31, c.2.2, M.a33⟩) / d,
   (Mat3.det ⟨M.a11, M.a12, c.1, M.a21, M.a22, c.2.1, M.a31, M.a32, c.2.2⟩) / d)

/-- Normal matrix AᵀA of a matrix given as a list of rows. -/
def normalMat (rows : List (α × α × α)) : Mat3 α :=
  rows.foldl
    (fun M r =>
      ⟨M.a11 + r.1 * r.1, M.a12 + r.1 * r.2.1, M.a13 + r.1 * r.2.2,
       M.a21 + r.2.1 * r.1, M.a22 + r.2.1 * r.2.1, M.a23 + r.2.1 * r.2.2,
       M.a31 + r.2.2 * r.1, M.a32 + r.2.2 * r.2.1, M.a33 + r.2.2 * r.2.2⟩)
    ⟨0, 0, 0, 0, 0, 0, 0, 0, 0⟩

/-- Normal right-hand side Aᵀb. -/
def normalVec (rows : List (α × α × α)) (b : List α) : α × α × α :=
  (rows.zip b).foldl
    (fun c p =>
      (c.1 + p.2 * p.1.1, c.2.1 + p.2 * p.1.2.1, c.2.2 + p.2 * p.1.2.2))
    (0, 0, 0)

/-- Models np.linalg.lstsq(A, b, rcond=None): the minimum-norm
least-squares solution of A x = b, which exists for every finite input and
is returned without any rank or condition check.  The model is exact on
the two input classes the theorems below evaluate it on: when the normal
matrix is invertible the least-squares solution is unique and given by the
normal equations (solved by Cramer's rule), and when the third column of A
is identically zero with an invertible two-variable normal matrix, the
minimum-norm solution has third component 0 and its first two components
solve the two-variable normal equations (checked against the minimum-norm
characterization by lstsq3_coplanar_solves and
lstsq3_coplanar_minimum_norm below). -/
def lstsq3 (rows : List (α × α × α)) (b : List α) : α × α × α :=
  let M := normalMat rows
  let c := normalVec rows b
  if M.det ≠ 0 then
    M.cramer c
  else if rows.all (fun r => decide (r.2.2 = 0)) then
    let d2 := M.a11 * M.a22 - M.a12 * M.a12
    if d2 ≠ 0 then
      ((M.a22 * c.1 - M.a12 * c.2.1) / d2, (M.a11 * c.2.1 - M.a12 * c.1) / d2, 0)
    else (0, 0, 0)
  else (0, 0, 0)

/-- Anchor geometry held by the Trilateration class: the np.array of
anchor positions, in construction order. -/
structure Trilateration (α : Type) where
  anchor_positions : List (α × α × α)
  deriving DecidableEq

/-- Trilateration.__init__, lines 24-36: raises ValueError (modelled as
none) when fewer than 4 anchor positions are given, otherwise stores the
positions unchanged; no geometric (coplanarity) validation happens. -/
def Trilateration.init (anchors : List (α × α × α)) : Option (Trilateration α) :=
  if anchors.length < 4 then none else some ⟨anchors⟩

/-- Field num_anchors set by __init__. -/
def Trilateration.num_anchors (t : Trilateration α) : Nat :=
  t.anchor_positions.length

/-- Row i-1 of the matrix A built by linear_least_squares for anchor i
(loop body, lines 61-68). -/
def Trilateration.rowA (t : Trilateration α) (i : Nat) : α × α × α :=
  let p0 := t.anchor_positions.getD 0 (0, 0, 0)
  let pi := t.anchor_positions.getD i (0, 0, 0)
  (2 * (pi.1 - p0.1), 2 * (pi.2.1 - p0.2.1), 2 * (pi.2.2 - p0.2.2))

/-- Entry i-1 of the vector b built by linear_least_squares for anchor i
(loop body, line 70). -/
def Trilateration.entryb (t : Trilateration α) (distances : List α) (i : Nat) : α :=
  let p0 := t.anchor_positions.getD 0 (0, 0, 0)
  let pi := t.anchor_positions.getD i (0, 0, 0)
  let r0 := distances.getD 0 0
  let ri := distances.getD i 0
  (ri ^ 2 - r0 ^ 2) - (pi.1 ^ 2 - p0.1 ^ 2) - (pi.2.1 ^ 2 - p0.2.1 ^ 2)
    - (pi.2.2 ^ 2 - p0.2.2 ^ 2)

/-- The matrix A of linear_least_squares: one row per anchor i in
range(1, num_anchors). -/
def Trilateration.matA (t : Trilateration α) : List (α × α × α) :=
  (List.range (t.num_anchors - 1)).map (fun k => t.rowA (k + 1))

/-- The vector b of linear_least_squares. -/
def Trilateration.vecb (t : Trilateration α) (distances : List α) : List α :=
  (List.range (t.num_anchors - 1)).map (fun k => t.entryb distances (k + 1))

/-- Trilateration.linear_least_squares, lines 38-82: returns None when the
distance count differs from the anchor count (logged, no exception),
otherwise the least-squares solution of the linear system; the except
branch is unreachable for finite inputs because np.linalg.lstsq with
rcond=None does not fail on rank-deficient systems. -/
def Trilateration.linear_least_squares (t : Trilateration α) (distances : List α) :
    Option (α × α × α) :=
  if distances.length ≠ t.num_anchors then none
  else some (lstsq3 t.matA (t.vecb distances))

/-- The objective of nonlinear_optimization, lines 105-120: the sum over
all anchors of the squared difference between the Euclidean distance from
the candidate point to the anchor and the measured distance. -/
def objective (sqrt : α → α) (anchors : List (α × α × α)) (distances : List α)
    (p : α × α × α) : α :=
  (anchors.zip distances).foldl
    (fun acc ad =>
      acc + (sqrt ((p.1 - ad.1.1) ^ 2 + (p.2.1 - ad.1.2.1) ^ 2 +
        (p.2.2 - ad.1.2.2) ^ 2) - ad.2) ^ 2)
    0

/-- Centroid of the anchors, np.mean(anchor_positions, axis=0), the
default initial guess of nonlinear_optimization (line 101). -/
def centroid (anchors : List (α × α × α)) : α × α × α :=
  let n : α := (anchors.length : α)
  let s := anchors.foldl
    (fun acc a => (acc.1 + a.1, acc.2.1 + a.2.1, acc.2.2 + a.2.2)) (0, 0, 0)
  (s.1 / n, s.2.1 / n, s.2.2 / n)

/-- Trilateration.nonlinear_optimization, lines 84-134: None on a distance
count mismatch; otherwise the external optimizer is run from the given
initial guess (or from the anchor centroid when none is given), and its
iterate is returned only when it reports success - a non-converged run
returns None, discarding the iterate. -/
def Trilateration.nonlinear_optimization
    (minimize : ((α × α × α) → α) → (α × α × α) → OptResult α) (sqrt : α → α)
    (t : Trilateration α) (distances : List α)
    (initial_guess : Option (α × α × α)) : Option (α × α × α) :=
  if distances.length ≠ t.num_anchors then none
  else
    let guess := initial_guess.getD (centroid t.anchor_positions)
    let r := minimize (objective sqrt t.anchor_positions distances) guess
    if r.success then some r.x else none

/-- Trilateration.multilateral_algorithm, lines 136-156: linear least
squares first; when it returns a result, nonlinear optimization seeded
with it, whose result is returned when non-None; in every other case a
final nonlinear optimization run with the default (centroid) guess. -/
def Trilateration.multilateral_algorithm
    (minimize : ((α × α × α) → α) → (α × α × α) → OptResult α) (sqrt : α → α)
    (t : Trilateration α) (distances : List α) : Option (α × α × α) :=
  match t.linear_least_squares distances with
  | some lls_result =>
    match t.nonlinear_optimization minimize sqrt distances (some lls_result) with
    | some opt_result => some opt_result
    | none => t.nonlinear_optimization minimize sqrt distances none
  | none => t.nonlinear_optimization minimize sqrt distances none

/-- Trilateration.estimate_position, lines 158-177: dispatch on the
method string, None on an unknown method. -/
def Trilateration.estimate_position
    (minimize : ((α × α × α) → α) → (α × α × α) → OptResult α) (sqrt : α → α)
    (t : Trilateration α) (distances : List α) (method : String) :
    Option (α × α × α) :=
  if method = "lls" then t.linear_least_squares distances
  else if method = "nonlinear" then t.nonlinear_optimization minimize sqrt distances none
  else if method = "multi" then t.multilateral_algorithm minimize sqrt distances
  else none

/-- Trilateration.calculate_position_error, lines 179-193: Euclidean
distance between the true and the estimated position. -/
def Trilateration.calculate_position_error (sqrt : α → α)
    (true_position estimated_position : α × α × α) : α :=
  sqrt ((true_position.1 - estimated_position.1) ^ 2 +
    (true_position.2.1 - estimated_position.2.1) ^ 2 +
    (true_position.2.2 - estimated_position.2.2) ^ 2)

/-! ### Helper lemmas -/

/-- Cramer's rule really solves the normal equations whenever the
determinant is nonzero: this is the sense in which lstsq3 solves the
system by least squares on full-rank input. -/
theorem Mat3.cramer_solves (M : Mat3 α) (c : α × α × α) (h : M.det ≠ 0) :
    M.mulVec (M.cramer c) = c := by
  obtain ⟨c1, c2, c3⟩ := c
  have h1 : M.a11 * (Mat3.det ⟨c1, M.a12, M.a13, c2, M.a22, M.a23, c3, M.a32, M.a33⟩ / M.det)
      + M.a12 * (Mat3.det ⟨M.a11, c1, M.a13, M.a21, c2, M.a23, M.a31, c3, M.a33⟩ / M.det)
      + M.a13 * (Mat3.det ⟨M.a11, M.a12, c1, M.a21, M.a22, c2, M.a31, M.a32, c3⟩ / M.det)
      = c1 := by
    field_simp
    simp only [Mat3.det]
    ring
  have h2 : M.a21 * (Mat3.det ⟨c1, M.a12, M.a13, c2, M.a22, M.a23, c3, M.a32, M.a33⟩ / M.det)
      + M.a22 * (Mat3.det ⟨M.a11, c1, M.a13, M.a21, c2, M.a23, M.a31, c3, M.a33⟩ / M.det)
      + M.a23 * (Mat3.det ⟨M.a11, M.a12, c1, M.a21, M.a22, c2, M.a31, M.a32, c3⟩ / M.det)
      = c2 := by
    field_simp
    simp only [Mat3.det]
    ring
  have h3 : M.a31 * (Mat3.det ⟨c1, M.a12, M.a13, c2, M.a22, M.a23, c3, M.a32, M.a33⟩ / M.det)
      + M.a32 * (Mat3.det ⟨M.a11, c1, M.a13, M.a21, c2, M.a23, M.a31, c3, M.a33⟩ / M.det)
      + M.a33 * (Mat3.det ⟨M.a11, M.a12, c1, M.a21, M.a22, c2, M.a31, M.a32, c3⟩ / M.det)
      = c3 := by
    field_simp
    simp only [Mat3.det]
    ring
  simp only [Mat3.mulVec, Mat3.cramer]
  exact congrArg₂ Prod.mk h1 (congrArg₂ Prod.mk h2 h3)

/-- Unfolding of multilateral_algorithm when linear least squares
produces a result. -/
theorem Trilateration.multilateral_eq_of_lls
    (minimize : ((α × α × α) → α) → (α × α × α) → OptResult α) (sqrt : α → α)
    (t : Trilateration α) (distances : List α) (s : α × α × α)
    (hs : t.linear_least_squares distances = some s) :
    t.multilateral_algorithm minimize sqrt distances =
      (match t.nonlinear_optimization minimize sqrt distances (some s) with
        | some r => some r
        | none => t.nonlinear_optimization minimize sqrt distances none) := by
  unfold Trilateration.multilateral_algorithm
  rw [hs]

/-- The method string "multi" dispatches to multilateral_algorithm. -/
theorem Trilateration.estimate_multi
    (minimize : ((α × α × α) → α) → (α × α × α) → OptResult α) (sqrt : α → α)
    (t : Trilateration α) (distances : List α) :
    t.estimate_position minimize sqrt distances "multi" =
      t.multilateral_algorithm minimize sqrt distances := by
  unfold Trilateration.estimate_position
  rw [if_neg (by decide), if_neg (by decide), if_pos rfl]

/-! ### Claims about the range measurement source -/

/-- C1 (amended): the state effect of measure_distance, for every sensor
and every input: when the rate gate rejects the call the state is
unchanged, and whenever the rate gate passes, last_measurement_time is set
to current_time - even when the call then returns no measurement because
of the range cutoff or the detection trial.  (The spec's claim that a
range/detection failure leaves the state unchanged is refuted by
UWBSensor_rate_clock_advances_on_failed_range.) -/
theorem UWBSensor_state_effect (sqrt : α → α) (s : UWBSensor α)
    (target : α × α × α) (t u noise : α) :
    (s.measure_distance sqrt target t u noise).2 =
      if t - s.last_measurement_time < 1 / s.update_rate then s
      else { s with last_measurement_time := t } := by
  simp only [UWBSensor.measure_distance]
  split_ifs <;> rfl

/-- C1 (counterexample): a concrete sensor with max_range = 1 and a target
at true distance 5: the rate gate passes, the call returns no measurement
(out of range), yet last_measurement_time is changed from 0 to 1 - the
claim that a failed range gate leaves last_measurement_time unchanged is
false. -/
theorem UWBSensor_rate_clock_advances_on_failed_range :
    ((⟨(0, 0, 0), 1 / 10, 1, 19 / 20, 10, 0⟩ :
        UWBSensor ℝ).measure_distance Real.sqrt (3, 4, 0) 1 (1 / 2) 0).1
        = none ∧
      (((⟨(0, 0, 0), 1 / 10, 1, 19 / 20, 10, 0⟩ :
        UWBSensor ℝ).measure_distance Real.sqrt (3, 4, 0) 1 (1 / 2) 0).2).last_measurement_time
        = 1 ∧ (1 : ℝ) ≠ 0 := by
  have h25 : ((3 : ℝ) - 0) ^ 2 + ((4 : ℝ) - 0) ^ 2 + ((0 : ℝ) - 0) ^ 2 = 5 ^ 2 := by
    norm_num
  simp only [UWBSensor.measure_distance, h25,
    Real.sqrt_sq (by norm_num : (0 : ℝ) ≤ 5)]
  norm_num

/-- C10: a freshly constructed sensor has last_measurement_time = 0, so
its very first measure_distance call at any current_time strictly below
1/update_rate is rejected by the rate gate and returns no measurement,
leaving the sensor unchanged. -/
theorem UWBSensor_fresh_sensor_first_call_gated (sqrt : α → α)
    (position : α × α × α) (rns mr dp ur : α) (target : α × α × α)
    (t u noise : α) (h : t < 1 / ur) :
    (UWBSensor.init position rns mr dp ur).measure_distance sqrt target t u noise
      = (none, UWBSensor.init position rns mr dp ur) := by
  simp only [UWBSensor.init, UWBSensor.measure_distance]
  rw [if_pos]
  simpa using h

/-- Witness for C10 at a concrete input: update_rate 10, first call at
time 1/20 < 1/10. -/
theorem UWBSensor_fresh_sensor_first_call_gated_witness :
    (1 : ℚ) / 20 < 1 / 10 ∧
      (UWBSensor.init ((0 : ℚ), 0, 0) (1 / 10) 100 (19 / 20) 10).measure_distance
        id (1, 2, 3) (1 / 20) 0 0 = (none, UWBSensor.init (0, 0, 0) (1 / 10) 100 (19 / 20) 10) :=
  ⟨by norm_num,
    UWBSensor_fresh_sensor_first_call_gated id ((0 : ℚ), 0, 0) (1 / 10) 100 (19 / 20)
      10 (1, 2, 3) (1 / 20) 0 0 (by norm_num)⟩

/-- C8 (amended): for a rate-gate-permitted call on a target within
max_range: with detection_probability = 1 every draw u that the uniform
generator can produce (u lies in the interval from 0 inclusive to 1
exclusive) yields a measurement, and with detection_probability = 0 every
draw u strictly greater than 0 yields no measurement - but the draw
u = 0, which np.random.random can produce, yields a measurement, because
the detection test is the strict comparison u > detection_probability.
(The claim that detection_probability = 0 yields no measurement for every
draw is refuted by UWBSensor_zero_probability_zero_draw_detects.) -/
theorem UWBSensor_detection_probability_boundary (sqrt : α → α)
    (s : UWBSensor α) (target : α × α × α) (t u noise : α)
    (hgate : ¬ (t - s.last_measurement_time < 1 / s.update_rate))
    (hrange : ¬ (sqrt ((target.1 - s.position.1) ^ 2 +
      (target.2.1 - s.position.2.1) ^ 2 +
      (target.2.2 - s.position.2.2) ^ 2) > s.max_range)) :
    (s.detection_probability = 1 → u ≤ 1 →
        (s.measure_distance sqrt target t u noise).1 ≠ none) ∧
      (s.detection_probability = 0 → 0 < u →
        (s.measure_distance sqrt target t u noise).1 = none) ∧
      (s.detection_probability = 0 → u = 0 →
        (s.measure_distance sqrt target t u noise).1 ≠ none) := by
  simp only [UWBSensor.measure_distance, if_neg hgate, if_neg hrange]
  refine ⟨fun hp hu => ?_, fun hp hu => ?_, fun hp hu => ?_⟩
  · rw [if_neg (by rw [hp]; exact not_lt.mpr hu)]
    simp
  · rw [if_pos (by rw [hp]; exact hu)]
  · rw [if_neg (by rw [hp, hu]; exact lt_irrefl 0)]
    simp

/-- Witness for C8 (amended) at a concrete input: sensor at the origin
with update_rate 10 and max_range 100, target at the origin, call at time
1 with draw u = 1/2. -/
theorem UWBSensor_detection_probability_boundary_witness :
    (¬ ((1 : ℚ) - 0 < 1 / 10)) ∧ (¬ (id ((0 : ℚ) ^ 2 + 0 ^ 2 + 0 ^ 2) > 100)) ∧
      (((⟨(0, 0, 0), 1 / 10, 100, 1, 10, 0⟩ : UWBSensor ℚ).detection_probability = 1 →
          (1 : ℚ) / 2 ≤ 1 →
          ((⟨(0, 0, 0), 1 / 10, 100, 1, 10, 0⟩ :
            UWBSensor ℚ).measure_distance id (0, 0, 0) 1 (1 / 2) 0).1 ≠ none)) := by
  refine ⟨by norm_num, by norm_num, ?_⟩
  exact (UWBSensor_detection_probability_boundary id
    (⟨(0, 0, 0), 1 / 10, 100, 1, 10, 0⟩ : UWBSensor ℚ) (0, 0, 0) 1 (1 / 2) 0
    (by norm_num) (by norm_num)).1

/-- C8 (counterexample): with detection_probability = 0, a rate-gate-
permitted in-range call whose uniform draw is exactly 0 returns a
measurement, because 0 > 0 is false; so the claim that probability 0
yields no measurement for every value of the draw is false. -/
theorem UWBSensor_zero_probability_zero_draw_detects :
    ((⟨(0, 0, 0), 1 / 10, 100, 0, 10, 0⟩ :
      UWBSensor ℚ).measure_distance id (0, 0, 0) 1 0 0).1 = some 0 := by
  simp only [UWBSensor.measure_distance]
  norm_num

/-! ### Claims about the position estimator -/

omit [LinearOrderedField α] in
/-- C9: construction of the trilateration object fails if and only if
fewer than 4 anchor positions are given; in particular any geometry with
exactly 4 anchors - coplanar ones included - is accepted, since __init__
checks only the count. -/
theorem Trilateration_init_fails_iff_too_few (anchors : List (α × α × α)) :
    Trilateration.init anchors = none ↔ anchors.length < 4 := by
  simp only [Trilateration.init]
  split_ifs with h <;> simp [h]

/-- C4 (amended): when the number of distances differs from the number of
anchors, every estimation path immediately returns None without running
any solve: linear least squares, nonlinear optimization with any seed, and
the combined multi method.  (No distinct error value is produced - the
outcome is the same None as any other failure, see
Trilateration_mismatch_not_distinct.) -/
theorem Trilateration_count_mismatch_returns_none
    (minimize : ((α × α × α) → α) → (α × α × α) → OptResult α) (sqrt : α → α)
    (t : Trilateration α) (distances : List α)
    (h : distances.length ≠ t.num_anchors) :
    t.estimate_position minimize sqrt distances "multi" = none ∧
      t.linear_least_squares distances = none ∧
      t.nonlinear_optimization minimize sqrt distances none = none := by
  have hl : t.linear_least_squares distances = none := by
    simp [Trilateration.linear_least_squares, h]
  have hn : ∀ g, t.nonlinear_optimization minimize sqrt distances g = none := by
    intro g
    simp [Trilateration.nonlinear_optimization, h]
  refine ⟨?_, hl, hn none⟩
  simp [Trilateration.estimate_position, Trilateration.multilateral_algorithm, hl, hn]

/-- Witness for C4 (amended): 3 distances against 4 anchors. -/
theorem Trilateration_count_mismatch_returns_none_witness :
    ([(1 : ℚ), 1, 1].length ≠
        (Trilateration.mk [((0 : ℚ), 0, 0), (1, 0, 0), (0, 1, 0), (0, 0, 1)]).num_anchors) ∧
      (Trilateration.mk [((0 : ℚ), 0, 0), (1, 0, 0), (0, 1, 0), (0, 0, 1)]).estimate_position
        (fun _ g => ⟨true, g⟩) id [1, 1, 1] "multi" = none := by
  have h : [(1 : ℚ), 1, 1].length ≠
      (Trilateration.mk [((0 : ℚ), 0, 0), (1, 0, 0), (0, 1, 0), (0, 0, 1)]).num_anchors := by
    simp [Trilateration.num_anchors]
  exact ⟨h, (Trilateration_count_mismatch_returns_none (fun _ g => ⟨true, g⟩) id _ _ h).1⟩

/-- C4 (counterexample): the mismatch outcome is not a distinct error
value: with the same 4-anchor object, a call with 3 distances and a call
with 4 distances whose optimizer run does not converge both return the
very same None, so the caller cannot tell a count mismatch from any other
failure. -/
theorem Trilateration_mismatch_not_distinct :
    (Trilateration.mk [((0 : ℚ), 0, 0), (1, 0, 0), (0, 1, 0), (0, 0, 1)]).estimate_position
        (fun _ g => ⟨false, g⟩) id [1, 1, 1] "multi" = none ∧
      (Trilateration.mk [((0 : ℚ), 0, 0), (1, 0, 0), (0, 1, 0), (0, 0, 1)]).estimate_position
        (fun _ g => ⟨false, g⟩) id [1, 1, 1, 1] "multi" = none := by
  constructor
  · simp [Trilateration.estimate_position, Trilateration.multilateral_algorithm,
      Trilateration.linear_least_squares, Trilateration.nonlinear_optimization,
      Trilateration.num_anchors]
  · simp [Trilateration.estimate_position, Trilateration.multilateral_algorithm,
      Trilateration.linear_least_squares, Trilateration.nonlinear_optimization,
      Trilateration.num_anchors]

/-- C2 (amended): a Stage B run whose optimizer reports non-convergence
returns None, discarding the optimizer's iterate; when every optimizer run
on the given distances fails, the combined multilateral result is None as
well, so non-convergence does surface to the caller as an absent result. -/
theorem Trilateration_nonconvergence_discards_iterate
    (minimize : ((α × α × α) → α) → (α × α × α) → OptResult α) (sqrt : α → α)
    (t : Trilateration α) (distances : List α) (g : Option (α × α × α))
    (hfail : ∀ p, (minimize (objective sqrt t.anchor_positions distances) p).success
      = false) :
    t.nonlinear_optimization minimize sqrt distances g = none ∧
      t.multilateral_algorithm minimize sqrt distances = none := by
  have hn : ∀ g', t.nonlinear_optimization minimize sqrt distances g' = none := by
    intro g'
    unfold Trilateration.nonlinear_optimization
    split_ifs with h
    · rfl
    · simp [hfail]
  refine ⟨hn g, ?_⟩
  unfold Trilateration.multilateral_algorithm
  cases hl : t.linear_least_squares distances <;> simp [hn]

/-- Witness for C2 (amended): a concrete 4-anchor object with matching
distances and an optimizer that never converges. -/
theorem Trilateration_nonconvergence_discards_iterate_witness :
    (Trilateration.mk [((0 : ℚ), 0, 0), (1, 0, 0), (0, 1, 0), (0, 0, 1)]).nonlinear_optimization
        (fun _ g => ⟨false, g⟩) id [1, 1, 1, 1] (some (0, 0, 0)) = none ∧
      (Trilateration.mk [((0 : ℚ), 0, 0), (1, 0, 0), (0, 1, 0), (0, 0, 1)]).multilateral_algorithm
        (fun _ g => ⟨false, g⟩) id [1, 1, 1, 1] = none :=
  Trilateration_nonconvergence_discards_iterate (fun _ g => ⟨false, g⟩) id
    (Trilateration.mk [((0 : ℚ), 0, 0), (1, 0, 0), (0, 1, 0), (0, 0, 1)])
    [1, 1, 1, 1] (some (0, 0, 0)) (fun _ => rfl)

/-- C2 (counterexample): the optimizer run does not converge and reports
the best iterate (1/4, 1/4, 1/4); nonlinear_optimization returns None
instead of that iterate, so the claim that the best iterate is still
returned is false. -/
theorem Trilateration_nonconvergence_returns_none :
    (Trilateration.mk [((0 : ℚ), 0, 0), (1, 0, 0), (0, 1, 0), (0, 0, 1)]).nonlinear_optimization
      (fun _ _ => ⟨false, (1 / 4, 1 / 4, 1 / 4)⟩) id [1, 1, 1, 1] (some (0, 0, 0))
      = none := by
  simp [Trilateration.nonlinear_optimization, Trilateration.num_anchors]

/-- Concrete Stage A evaluation on the regular tetrahedron-like geometry
used by several witnesses: the unit-axis anchors with all four measured
distances 1. -/
theorem lls_unit_axes :
    (Trilateration.mk [((0 : ℚ), 0, 0), (1, 0, 0), (0, 1, 0), (0, 0, 1)]).linear_least_squares
      [1, 1, 1, 1] = some (-(1 / 2), -(1 / 2), -(1 / 2)) := by
  have hr : List.range 3 = [0, 1, 2] := rfl
  simp [Trilateration.linear_least_squares, Trilateration.num_anchors,
    Trilateration.matA, Trilateration.vecb, Trilateration.rowA, Trilateration.entryb,
    lstsq3, normalMat, normalVec, Mat3.det, Mat3.cramer, Mat3.mulVec, hr]
  norm_num

/-- Centroid of the unit-axis anchors. -/
theorem centroid_unit_axes :
    centroid [((0 : ℚ), 0, 0), (1, 0, 0), (0, 1, 0), (0, 0, 1)] = (1 / 4, 1 / 4, 1 / 4) := by
  norm_num [centroid]

/-- C3 (amended): linear least squares runs first and, when it produces a
result s, Stage B is seeded with s; if that run converges its output is
returned, but if it does not, the code falls through to a Stage B run with
the default centroid seed - so the centroid seed is used not only when
Stage A fails but also when Stage A succeeds and the Stage B run from its
seed fails (refuted iff direction:
Trilateration_centroid_seed_despite_linear_success). -/
theorem Trilateration_linear_seed_preferred
    (minimize : ((α × α × α) → α) → (α × α × α) → OptResult α) (sqrt : α → α)
    (t : Trilateration α) (distances : List α) (s : α × α × α)
    (hs : t.linear_least_squares distances = some s) :
    t.multilateral_algorithm minimize sqrt distances =
      (if (minimize (objective sqrt t.anchor_positions distances) s).success
        then some (minimize (objective sqrt t.anchor_positions distances) s).x
        else t.nonlinear_optimization minimize sqrt distances none) ∧
      t.nonlinear_optimization minimize sqrt distances none =
        (if (minimize (objective sqrt t.anchor_positions distances)
            (centroid t.anchor_positions)).success
          then some (minimize (objective sqrt t.anchor_positions distances)
            (centroid t.anchor_positions)).x
          else none) := by
  have hlen : ¬ distances.length ≠ t.num_anchors := by
    intro h
    rw [Trilateration.linear_least_squares, if_pos h] at hs
    exact Option.noConfusion hs
  have hnl : ∀ g0 : Option (α × α × α),
      t.nonlinear_optimization minimize sqrt distances g0 =
        (if (minimize (objective sqrt t.anchor_positions distances)
            (g0.getD (centroid t.anchor_positions))).success
          then some (minimize (objective sqrt t.anchor_positions distances)
            (g0.getD (centroid t.anchor_positions))).x
          else none) := by
    intro g0
    rw [Trilateration.nonlinear_optimization, if_neg hlen]
  refine ⟨?_, by simpa using hnl none⟩
  rw [Trilateration.multilateral_eq_of_lls minimize sqrt t distances s hs, hnl (some s)]
  simp only [Option.getD_some]
  cases hsucc : (minimize (objective sqrt t.anchor_positions distances) s).success
  · simp
  · simp

/-- Witness for C3 (amended): the unit-axis geometry, whose Stage A
result is (-1/2, -1/2, -1/2), with an optimizer that converges
everywhere returning its seed. -/
theorem Trilateration_linear_seed_preferred_witness :
    (Trilateration.mk [((0 : ℚ), 0, 0), (1, 0, 0), (0, 1, 0), (0, 0, 1)]).linear_least_squares
        [1, 1, 1, 1] = some (-(1 / 2), -(1 / 2), -(1 / 2)) ∧
      (Trilateration.mk [((0 : ℚ), 0, 0), (1, 0, 0), (0, 1, 0), (0, 0, 1)]).multilateral_algorithm
        (fun _ g => ⟨true, g⟩) id [1, 1, 1, 1] = some (-(1 / 2), -(1 / 2), -(1 / 2)) := by
  refine ⟨lls_unit_axes, ?_⟩
  have h := (Trilateration_linear_seed_preferred (fun _ g => (⟨true, g⟩ : OptResult ℚ)) id
    (Trilateration.mk [((0 : ℚ), 0, 0), (1, 0, 0), (0, 1, 0), (0, 0, 1)]) [1, 1, 1, 1]
    (-(1 / 2), -(1 / 2), -(1 / 2)) lls_unit_axes).1
  simpa using h

/-- C3 (counterexample): Stage A succeeds on the unit-axis input, yet the
returned estimate is produced by the centroid-seeded Stage B run: the
optimizer here converges only when started from the centroid
(1/4, 1/4, 1/4) and returns its seed, and the combined method returns
exactly that centroid - which Stage A did not produce - refuting the claim
that the centroid seed is used only when Stage A fails. -/
theorem Trilateration_centroid_seed_despite_linear_success :
    ((Trilateration.mk [((0 : ℚ), 0, 0), (1, 0, 0), (0, 1, 0), (0, 0, 1)]).linear_least_squares
        [1, 1, 1, 1]).isSome = true ∧
      (Trilateration.mk [((0 : ℚ), 0, 0), (1, 0, 0), (0, 1, 0), (0, 0, 1)]).multilateral_algorithm
        (fun _ g => if g = (1 / 4, 1 / 4, 1 / 4) then ⟨true, g⟩ else ⟨false, g⟩) id
        [1, 1, 1, 1] = some (1 / 4, 1 / 4, 1 / 4) ∧
      (Trilateration.mk [((0 : ℚ), 0, 0), (1, 0, 0), (0, 1, 0), (0, 0, 1)]).linear_least_squares
        [1, 1, 1, 1] ≠ some ((1 / 4 : ℚ), 1 / 4, 1 / 4) := by
  refine ⟨by rw [lls_unit_axes]; rfl, ?_, by rw [lls_unit_axes]; norm_num⟩
  have hn1 : (Trilateration.mk [((0 : ℚ), 0, 0), (1, 0, 0), (0, 1, 0), (0, 0, 1)]).nonlinear_optimization
      (fun _ g => if g = (1 / 4, 1 / 4, 1 / 4) then ⟨true, g⟩ else ⟨false, g⟩) id
      [1, 1, 1, 1] (some (-(1 / 2), -(1 / 2), -(1 / 2))) = none := by
    unfold Trilateration.nonlinear_optimization
    rw [if_neg (by norm_num [Trilateration.num_anchors])]
    norm_num
  have hn2 : (Trilateration.mk [((0 : ℚ), 0, 0), (1, 0, 0), (0, 1, 0), (0, 0, 1)]).nonlinear_optimization
      (fun _ g => if g = (1 / 4, 1 / 4, 1 / 4) then ⟨true, g⟩ else ⟨false, g⟩) id
      [1, 1, 1, 1] none = some (1 / 4, 1 / 4, 1 / 4) := by
    unfold Trilateration.nonlinear_optimization
    rw [if_neg (by norm_num [Trilateration.num_anchors])]
    simp only [Option.getD_none, centroid_unit_axes]
    norm_num
  rw [Trilateration.multilateral_eq_of_lls _ _ _ _ _ lls_unit_axes, hn1, hn2]

/-- Concrete Stage A evaluation on the coplanar spec geometry: all four
anchors at z = 5/2, equal measured distances 4.  The third column of A is
zero, the normal matrix is singular, and lstsq3 returns the minimum-norm
least-squares solution (-5/2, -5/2, 0) - no failure, no rank warning. -/
theorem lls_coplanar_square :
    (Trilateration.mk
        [((0 : ℚ), 0, 5 / 2), (5, 0, 5 / 2), (5, 5, 5 / 2), (0, 5, 5 / 2)]).linear_least_squares
      [4, 4, 4, 4] = some (-(5 / 2), -(5 / 2), 0) := by
  have hr : List.range 3 = [0, 1, 2] := rfl
  simp [Trilateration.linear_least_squares, Trilateration.num_anchors,
    Trilateration.matA, Trilateration.vecb, Trilateration.rowA, Trilateration.entryb,
    lstsq3, normalMat, normalVec, Mat3.det, Mat3.cramer, hr]
  norm_num

/-- The value lstsq3 returns on the coplanar system is an exact solution
of the system (its residual is zero, so it is in particular a
least-squares minimizer). -/
theorem lstsq3_coplanar_solves :
    (10 * (lstsq3 [((10 : ℚ), 0, 0), (10, 10, 0), (0, 10, 0)] [-25, -50, -25]).1
        + 0 + 0 = -25) ∧
      (10 * (lstsq3 [((10 : ℚ), 0, 0), (10, 10, 0), (0, 10, 0)] [-25, -50, -25]).1
        + 10 * (lstsq3 [((10 : ℚ), 0, 0), (10, 10, 0), (0, 10, 0)] [-25, -50, -25]).2.1
        + 0 = -50) ∧
      (0 + 10 * (lstsq3 [((10 : ℚ), 0, 0), (10, 10, 0), (0, 10, 0)] [-25, -50, -25]).2.1
        + 0 = -25) := by
  norm_num [lstsq3, normalMat, normalVec, Mat3.det]

/-- Every exact solution of the coplanar system has the form
(-5/2, -5/2, z), and among these the value with z = 0 - the one lstsq3
returns - has the smallest squared norm: lstsq3's fallback branch agrees
with the minimum-norm least-squares solution np.linalg.lstsq computes. -/
theorem lstsq3_coplanar_minimum_norm (v : ℚ × ℚ × ℚ)
    (h1 : 10 * v.1 = -25) (h2 : 10 * v.1 + 10 * v.2.1 = -50) :
    v.1 = -(5 / 2) ∧ v.2.1 = -(5 / 2) ∧
      (-(5 / 2) : ℚ) ^ 2 + (-(5 / 2)) ^ 2 + 0 ^ 2 ≤ v.1 ^ 2 + v.2.1 ^ 2 + v.2.2 ^ 2 := by
  have hx : v.1 = -(5 / 2) := by linarith
  have hy : v.2.1 = -(5 / 2) := by linarith
  refine ⟨hx, hy, ?_⟩
  rw [hx, hy]
  nlinarith [sq_nonneg v.2.2]

/-- C5 (amended): with the four coplanar anchors of the spec's degeneracy
test, no crash and no failure value occurs, but not through the claimed
mechanism: there is no rank check, Stage A is not treated as failed - it
returns the minimum-norm least-squares solution of the rank-deficient
system - and Stage B is seeded with that Stage A result rather than with
the centroid; whenever the optimizer converges, the combined estimate is
the optimizer's iterate from that linear seed.  (In this exact-arithmetic
model no NaN/Inf exists; the claimed centroid-seeded path is refuted by
Trilateration_coplanar_no_rank_detection.) -/
theorem Trilateration_coplanar_estimates_from_linear_seed
    (minimize : ((ℚ × ℚ × ℚ) → ℚ) → (ℚ × ℚ × ℚ) → OptResult ℚ)
    (hsucc : ∀ g, (minimize (objective id
        [((0 : ℚ), 0, 5 / 2), (5, 0, 5 / 2), (5, 5, 5 / 2), (0, 5, 5 / 2)]
        [4, 4, 4, 4]) g).success = true) :
    (Trilateration.mk
        [((0 : ℚ), 0, 5 / 2), (5, 0, 5 / 2), (5, 5, 5 / 2), (0, 5, 5 / 2)]).linear_least_squares
        [4, 4, 4, 4] = some (-(5 / 2), -(5 / 2), 0) ∧
      (Trilateration.mk
        [((0 : ℚ), 0, 5 / 2), (5, 0, 5 / 2), (5, 5, 5 / 2), (0, 5, 5 / 2)]).estimate_position
          minimize id [4, 4, 4, 4] "multi"
        = some (minimize (objective id
            [((0 : ℚ), 0, 5 / 2), (5, 0, 5 / 2), (5, 5, 5 / 2), (0, 5, 5 / 2)]
            [4, 4, 4, 4]) (-(5 / 2), -(5 / 2), 0)).x := by
  refine ⟨lls_coplanar_square, ?_⟩
  have hnl : (Trilateration.mk
      [((0 : ℚ), 0, 5 / 2), (5, 0, 5 / 2), (5, 5, 5 / 2), (0, 5, 5 / 2)]).nonlinear_optimization
        minimize id [4, 4, 4, 4] (some (-(5 / 2), -(5 / 2), 0))
      = some (minimize (objective id
          [((0 : ℚ), 0, 5 / 2), (5, 0, 5 / 2), (5, 5, 5 / 2), (0, 5, 5 / 2)]
          [4, 4, 4, 4]) (-(5 / 2), -(5 / 2), 0)).x := by
    unfold Trilateration.nonlinear_optimization
    rw [if_neg (by norm_num [Trilateration.num_anchors])]
    simp [hsucc]
  rw [Trilateration.estimate_multi,
    Trilateration.multilateral_eq_of_lls _ _ _ _ _ lls_coplanar_square, hnl]

/-- Witness for C5 (amended): the always-converging optimizer that
returns its seed: the combined estimate is exactly the Stage A
minimum-norm solution. -/
theorem Trilateration_coplanar_estimates_from_linear_seed_witness :
    (Trilateration.mk
        [((0 : ℚ), 0, 5 / 2), (5, 0, 5 / 2), (5, 5, 5 / 2), (0, 5, 5 / 2)]).linear_least_squares
        [4, 4, 4, 4] = some (-(5 / 2), -(5 / 2), 0) ∧
      (Trilateration.mk
        [((0 : ℚ), 0, 5 / 2), (5, 0, 5 / 2), (5, 5, 5 / 2), (0, 5, 5 / 2)]).estimate_position
          (fun _ g => ⟨true, g⟩) id [4, 4, 4, 4] "multi" = some (-(5 / 2), -(5 / 2), 0) :=
  Trilateration_coplanar_estimates_from_linear_seed (fun _ g => ⟨true, g⟩) (fun _ => rfl)

/-- C5 (counterexample): on the coplanar input the code neither returns a
degenerate-geometry failure nor an estimate obtained from the centroid
seed: Stage A succeeds (no rank detection), and with an optimizer that
converges everywhere returning its seed the combined estimate equals the
Stage A seed (-5/2, -5/2, 0), which differs from the centroid
(5/2, 5/2, 5/2) that the claimed Stage-B-only path would have produced. -/
theorem Trilateration_coplanar_no_rank_detection :
    ((Trilateration.mk
        [((0 : ℚ), 0, 5 / 2), (5, 0, 5 / 2), (5, 5, 5 / 2), (0, 5, 5 / 2)]).linear_least_squares
        [4, 4, 4, 4]).isSome = true ∧
      (Trilateration.mk
        [((0 : ℚ), 0, 5 / 2), (5, 0, 5 / 2), (5, 5, 5 / 2), (0, 5, 5 / 2)]).estimate_position
          (fun _ g => ⟨true, g⟩) id [4, 4, 4, 4] "multi" = some (-(5 / 2), -(5 / 2), 0) ∧
      centroid [((0 : ℚ), 0, 5 / 2), (5, 0, 5 / 2), (5, 5, 5 / 2), (0, 5, 5 / 2)]
        = (5 / 2, 5 / 2, 5 / 2) ∧
      ((-(5 / 2) : ℚ), -(5 / 2), 0) ≠ ((5 / 2 : ℚ), 5 / 2, 5 / 2) := by
  refine ⟨by rw [lls_coplanar_square]; rfl, ?_, by norm_num [centroid], by norm_num⟩
  have hnl : (Trilateration.mk
      [((0 : ℚ), 0, 5 / 2), (5, 0, 5 / 2), (5, 5, 5 / 2), (0, 5, 5 / 2)]).nonlinear_optimization
        (fun _ g => (⟨true, g⟩ : OptResult ℚ)) id [4, 4, 4, 4]
        (some (-(5 / 2), -(5 / 2), 0)) = some (-(5 / 2), -(5 / 2), 0) := by
    unfold Trilateration.nonlinear_optimization
    rw [if_neg (by norm_num [Trilateration.num_anchors])]
    rfl
  rw [Trilateration.estimate_multi,
    Trilateration.multilateral_eq_of_lls _ _ _ _ _ lls_coplanar_square, hnl]

/-- C6: with n anchors and n distances (n at least 4), Stage A builds
exactly n-1 linear equations in the 3 unknowns by subtracting the
squared-distance equation of the reference anchor 0 from that of each
other anchor i: row i-1 of A is (2(xi-x0), 2(yi-y0), 2(zi-z0)), entry i-1
of b is (ri^2-r0^2)-(xi^2-x0^2)-(yi^2-y0^2)-(zi^2-z0^2), and the system is
handed to the least-squares solver: the returned vector satisfies the
normal equations A'A x = A'b (the defining property of a least-squares
solution) whenever the normal matrix is invertible. -/
theorem Trilateration_stageA_builds_difference_system
    (t : Trilateration α) (distances : List α)
    (_hn : 4 ≤ t.num_anchors) (hlen : distances.length = t.num_anchors) :
    t.matA.length = t.num_anchors - 1 ∧
      (t.vecb distances).length = t.num_anchors - 1 ∧
      (∀ i : Nat, i < t.num_anchors - 1 →
        t.matA.getD i (0, 0, 0) =
          (2 * ((t.anchor_positions.getD (i + 1) (0, 0, 0)).1
              - (t.anchor_positions.getD 0 (0, 0, 0)).1),
           2 * ((t.anchor_positions.getD (i + 1) (0, 0, 0)).2.1
              - (t.anchor_positions.getD 0 (0, 0, 0)).2.1),
           2 * ((t.anchor_positions.getD (i + 1) (0, 0, 0)).2.2
              - (t.anchor_positions.getD 0 (0, 0, 0)).2.2)) ∧
          (t.vecb distances).getD i 0 =
            ((distances.getD (i + 1) 0) ^ 2 - (distances.getD 0 0) ^ 2)
              - ((t.anchor_positions.getD (i + 1) (0, 0, 0)).1 ^ 2
                - (t.anchor_positions.getD 0 (0, 0, 0)).1 ^ 2)
              - ((t.anchor_positions.getD (i + 1) (0, 0, 0)).2.1 ^ 2
                - (t.anchor_positions.getD 0 (0, 0, 0)).2.1 ^ 2)
              - ((t.anchor_positions.getD (i + 1) (0, 0, 0)).2.2 ^ 2
                - (t.anchor_positions.getD 0 (0, 0, 0)).2.2 ^ 2)) ∧
      t.linear_least_squares distances = some (lstsq3 t.matA (t.vecb distances)) ∧
      ((normalMat t.matA).det ≠ 0 →
        (normalMat t.matA).mulVec (lstsq3 t.matA (t.vecb distances))
          = normalVec t.matA (t.vecb distances)) := by
  refine ⟨by simp [Trilateration.matA], by simp [Trilateration.vecb], ?_, ?_, ?_⟩
  · intro i hi
    constructor
    · simp [Trilateration.matA, Trilateration.rowA,
        List.getD_eq_getElem?_getD, List.getElem?_map, List.getElem?_range, hi]
    · simp [Trilateration.vecb, Trilateration.entryb,
        List.getD_eq_getElem?_getD, List.getElem?_map, List.getElem?_range, hi]
  · simp [Trilateration.linear_least_squares, hlen]
  · intro h
    simp only [lstsq3]
    rw [if_pos h]
    exact Mat3.cramer_solves _ _ h

/-- Witness for C6 on the unit-axis geometry with distances all 1: the
built system is [(2,0,0),(0,2,0),(0,0,2)] x = [-1,-1,-1], three equations
for four anchors, and the returned solution satisfies the normal
equations. -/
theorem Trilateration_stageA_builds_difference_system_witness :
    (Trilateration.mk [((0 : ℚ), 0, 0), (1, 0, 0), (0, 1, 0), (0, 0, 1)]).matA.length = 3 ∧
      (Trilateration.mk [((0 : ℚ), 0, 0), (1, 0, 0), (0, 1, 0), (0, 0, 1)]).matA.getD 0 (0, 0, 0)
        = (2, 0, 0) ∧
      ((Trilateration.mk [((0 : ℚ), 0, 0), (1, 0, 0), (0, 1, 0), (0, 0, 1)]).vecb
        [1, 1, 1, 1]).getD 0 0 = -1 ∧
      (Trilateration.mk [((0 : ℚ), 0, 0), (1, 0, 0), (0, 1, 0), (0, 0, 1)]).linear_least_squares
          [1, 1, 1, 1]
        = some (lstsq3 (Trilateration.mk [((0 : ℚ), 0, 0), (1, 0, 0), (0, 1, 0), (0, 0, 1)]).matA
            ((Trilateration.mk [((0 : ℚ), 0, 0), (1, 0, 0), (0, 1, 0), (0, 0, 1)]).vecb
              [1, 1, 1, 1])) ∧
      (normalMat (Trilateration.mk [((0 : ℚ), 0, 0), (1, 0, 0), (0, 1, 0), (0, 0, 1)]).matA).mulVec
          (lstsq3 (Trilateration.mk [((0 : ℚ), 0, 0), (1, 0, 0), (0, 1, 0), (0, 0, 1)]).matA
            ((Trilateration.mk [((0 : ℚ), 0, 0), (1, 0, 0), (0, 1, 0), (0, 0, 1)]).vecb
              [1, 1, 1, 1]))
        = normalVec (Trilateration.mk [((0 : ℚ), 0, 0), (1, 0, 0), (0, 1, 0), (0, 0, 1)]).matA
            ((Trilateration.mk [((0 : ℚ), 0, 0), (1, 0, 0), (0, 1, 0), (0, 0, 1)]).vecb
              [1, 1, 1, 1]) := by
  have hr : List.range 3 = [0, 1, 2] := rfl
  have h := Trilateration_stageA_builds_difference_system
    (Trilateration.mk [((0 : ℚ), 0, 0), (1, 0, 0), (0, 1, 0), (0, 0, 1)]) [1, 1, 1, 1]
    (by norm_num [Trilateration.num_anchors]) (by norm_num [Trilateration.num_anchors])
  have hdet : (normalMat
      (Trilateration.mk [((0 : ℚ), 0, 0), (1, 0, 0), (0, 1, 0), (0, 0, 1)]).matA).det ≠ 0 := by
    norm_num [Trilateration.matA, Trilateration.rowA, Trilateration.num_anchors,
      normalMat, Mat3.det, hr]
  refine ⟨by simpa [Trilateration.num_anchors] using h.1, ?_, ?_, h.2.2.2.1, h.2.2.2.2 hdet⟩
  · have h0 := (h.2.2.1 0 (by norm_num [Trilateration.num_anchors])).1
    simpa using h0
  · have h0 := (h.2.2.1 0 (by norm_num [Trilateration.num_anchors])).2
    simpa using h0

/-- A left fold that only adds squares never drops below its initial
accumulator. -/
theorem foldl_add_sq_le {β : Type} (g : β → α) (l : List β) (a : α) :
    a ≤ l.foldl (fun acc x => acc + g x ^ 2) a := by
  induction l generalizing a with
  | nil => exact le_refl a
  | cons b bl ih =>
    exact le_trans (le_add_of_nonneg_right (sq_nonneg (g b))) (ih (a + g b ^ 2))

/-- The optimization objective is a sum of squares, hence nonnegative. -/
theorem objective_nonneg (sqrt : α → α) (anchors : List (α × α × α))
    (distances : List α) (p : α × α × α) :
    0 ≤ objective sqrt anchors distances p := by
  unfold objective
  exact foldl_add_sq_le
    (fun ad => sqrt ((p.1 - ad.1.1) ^ 2 + (p.2.1 - ad.1.2.1) ^ 2 +
      (p.2.2 - ad.1.2.2) ^ 2) - ad.2)
    (anchors.zip distances) 0

/-- The exact Euclidean distances from the spec's noiseless-recovery
anchors to the true target (5/2, 5/2, 1). -/
theorem testDistances_eval :
    ([((0 : ℝ), 0, 0), (5, 0, 0), (5, 5, 0), (0, 5, 5 / 2)]).map (fun a =>
        Real.sqrt (((5 / 2 : ℝ) - a.1) ^ 2 + ((5 / 2 : ℝ) - a.2.1) ^ 2 +
          ((1 : ℝ) - a.2.2) ^ 2))
      = [Real.sqrt (27 / 2), Real.sqrt (27 / 2), Real.sqrt (27 / 2),
          Real.sqrt (59 / 4)] := by
  norm_num [List.map]

/-- Stage A on the noiseless-recovery geometry with exact distances: the
3x3 system is invertible, and the least-squares solution is
(-5/2, -5/2, -1) - the reflection of the true point through the origin,
because the right-hand side built on line 70 of trilateration.py is the
negation of the algebraically correct one. -/
theorem lls_test_geometry :
    (Trilateration.mk [((0 : ℝ), 0, 0), (5, 0, 0), (5, 5, 0), (0, 5, 5 / 2)]).linear_least_squares
      [Real.sqrt (27 / 2), Real.sqrt (27 / 2), Real.sqrt (27 / 2), Real.sqrt (59 / 4)]
      = some (-(5 / 2), -(5 / 2), -1) := by
  have hr : List.range 3 = [0, 1, 2] := rfl
  have h1 : Real.sqrt (27 / 2) ^ 2 = 27 / 2 := Real.sq_sqrt (by norm_num)
  have h2 : Real.sqrt (59 / 4) ^ 2 = 59 / 4 := Real.sq_sqrt (by norm_num)
  set r0 : ℝ := Real.sqrt (27 / 2) with hr0
  set r3 : ℝ := Real.sqrt (59 / 4) with hr3
  simp [Trilateration.linear_least_squares, Trilateration.num_anchors,
    Trilateration.matA, Trilateration.vecb, Trilateration.rowA, Trilateration.entryb,
    lstsq3, normalMat, normalVec, Mat3.det, Mat3.cramer, hr, h1, h2]
  norm_num

/-- On the noiseless-recovery geometry the objective vanishes exactly at
the true target: the four spheres around the anchors with the exact radii
meet in the single point (5/2, 5/2, 1). -/
theorem objective_test_geometry_zero_iff (q : ℝ × ℝ × ℝ) :
    objective Real.sqrt [((0 : ℝ), 0, 0), (5, 0, 0), (5, 5, 0), (0, 5, 5 / 2)]
        [Real.sqrt (27 / 2), Real.sqrt (27 / 2), Real.sqrt (27 / 2), Real.sqrt (59 / 4)] q
      = 0 ↔ q = ((5 / 2 : ℝ), 5 / 2, 1) := by
  constructor
  · intro h
    obtain ⟨x, y, z⟩ := q
    simp only [objective, List.zip_cons_cons, List.zip_nil_right, List.foldl_cons,
      List.foldl_nil] at h
    have s0 := sq_nonneg (Real.sqrt ((x - 0) ^ 2 + (y - 0) ^ 2 + (z - 0) ^ 2)
      - Real.sqrt (27 / 2))
    have s1 := sq_nonneg (Real.sqrt ((x - 5) ^ 2 + (y - 0) ^ 2 + (z - 0) ^ 2)
      - Real.sqrt (27 / 2))
    have s2 := sq_nonneg (Real.sqrt ((x - 5) ^ 2 + (y - 5) ^ 2 + (z - 0) ^ 2)
      - Real.sqrt (27 / 2))
    have s3 := sq_nonneg (Real.sqrt ((x - 0) ^ 2 + (y - 5) ^ 2 + (z - 5 / 2) ^ 2)
      - Real.sqrt (59 / 4))
    have q0 : Real.sqrt ((x - 0) ^ 2 + (y - 0) ^ 2 + (z - 0) ^ 2) = Real.sqrt (27 / 2) := by
      have : (Real.sqrt ((x - 0) ^ 2 + (y - 0) ^ 2 + (z - 0) ^ 2)
          - Real.sqrt (27 / 2)) ^ 2 = 0 := by linarith
      have := (pow_eq_zero_iff (by norm_num : (2 : Nat) ≠ 0)).mp this
      linarith
    have q1 : Real.sqrt ((x - 5) ^ 2 + (y - 0) ^ 2 + (z - 0) ^ 2) = Real.sqrt (27 / 2) := by
      have : (Real.sqrt ((x - 5) ^ 2 + (y - 0) ^ 2 + (z - 0) ^ 2)
          - Real.sqrt (27 / 2)) ^ 2 = 0 := by linarith
      have := (pow_eq_zero_iff (by norm_num : (2 : Nat) ≠ 0)).mp this
      linarith
    have q2 : Real.sqrt ((x - 5) ^ 2 + (y - 5) ^ 2 + (z - 0) ^ 2) = Real.sqrt (27 / 2) := by
      have : (Real.sqrt ((x - 5) ^ 2 + (y - 5) ^ 2 + (z - 0) ^ 2)
          - Real.sqrt (27 / 2)) ^ 2 = 0 := by linarith
      have := (pow_eq_zero_iff (by norm_num : (2 : Nat) ≠ 0)).mp this
      linarith
    have q3 : Real.sqrt ((x - 0) ^ 2 + (y - 5) ^ 2 + (z - 5 / 2) ^ 2)
        = Real.sqrt (59 / 4) := by
      have : (Real.sqrt ((x - 0) ^ 2 + (y - 5) ^ 2 + (z - 5 / 2) ^ 2)
          - Real.sqrt (59 / 4)) ^ 2 = 0 := by linarith
      have := (pow_eq_zero_iff (by norm_num : (2 : Nat) ≠ 0)).mp this
      linarith
    have E0 : (x - 0) ^ 2 + (y - 0) ^ 2 + (z - 0) ^ 2 = 27 / 2 := by
      have hnn : (0 : ℝ) ≤ (x - 0) ^ 2 + (y - 0) ^ 2 + (z - 0) ^ 2 := by positivity
      rw [← Real.sq_sqrt hnn, q0, Real.sq_sqrt (by norm_num : (0 : ℝ) ≤ 27 / 2)]
    have E1 : (x - 5) ^ 2 + (y - 0) ^ 2 + (z - 0) ^ 2 = 27 / 2 := by
      have hnn : (0 : ℝ) ≤ (x - 5) ^ 2 + (y - 0) ^ 2 + (z - 0) ^ 2 := by positivity
      rw [← Real.sq_sqrt hnn, q1, Real.sq_sqrt (by norm_num : (0 : ℝ) ≤ 27 / 2)]
    have E2 : (x - 5) ^ 2 + (y - 5) ^ 2 + (z - 0) ^ 2 = 27 / 2 := by
      have hnn : (0 : ℝ) ≤ (x - 5) ^ 2 + (y - 5) ^ 2 + (z - 0) ^ 2 := by positivity
      rw [← Real.sq_sqrt hnn, q2, Real.sq_sqrt (by norm_num : (0 : ℝ) ≤ 27 / 2)]
    have E3 : (x - 0) ^ 2 + (y - 5) ^ 2 + (z - 5 / 2) ^ 2 = 59 / 4 := by
      have hnn : (0 : ℝ) ≤ (x - 0) ^ 2 + (y - 5) ^ 2 + (z - 5 / 2) ^ 2 := by positivity
      rw [← Real.sq_sqrt hnn, q3, Real.sq_sqrt (by norm_num : (0 : ℝ) ≤ 59 / 4)]
    have hx : x = 5 / 2 := by linear_combination (E0 - E1) / 10
    have hy : y = 5 / 2 := by linear_combination (E1 - E2) / 10
    have hz : z = 1 := by linear_combination (E0 - E3) / 5 - 2 * hy
    rw [hx, hy, hz]
  · rintro rfl
    simp only [objective, List.zip_cons_cons, List.zip_nil_right, List.foldl_cons,
      List.foldl_nil]
    norm_num

/-- C7: for the spec's noiseless-recovery geometry - anchors (0,0,0),
(5,0,0), (5,5,0), (0,5,5/2), true target (5/2, 5/2, 1), exact Euclidean
distances - Stage A succeeds (returning the reflected seed
(-5/2, -5/2, -1)), the combined estimate is produced by the Stage B run
seeded with that Stage A result (the linear-seeded refinement path the
spec tags NonlinearRefined), and it is exactly the true point, hence
within 1e-6 of it; the optimizer (external scipy) is assumed here to
converge and return a global minimizer of the objective. -/
theorem Trilateration_noiseless_recovery
    (minimize : ((ℝ × ℝ × ℝ) → ℝ) → (ℝ × ℝ × ℝ) → OptResult ℝ)
    (t : Trilateration ℝ) (d : List ℝ)
    (ht : t = Trilateration.mk [((0 : ℝ), 0, 0), (5, 0, 0), (5, 5, 0), (0, 5, 5 / 2)])
    (hd : d = [((0 : ℝ), 0, 0), (5, 0, 0), (5, 5, 0), (0, 5, 5 / 2)].map (fun a =>
        Real.sqrt (((5 / 2 : ℝ) - a.1) ^ 2 + ((5 / 2 : ℝ) - a.2.1) ^ 2 +
          ((1 : ℝ) - a.2.2) ^ 2)))
    (hmin : ∀ g, (minimize (objective Real.sqrt t.anchor_positions d) g).success = true ∧
      ∀ p, objective Real.sqrt t.anchor_positions d
          ((minimize (objective Real.sqrt t.anchor_positions d) g).x)
        ≤ objective Real.sqrt t.anchor_positions d p) :
    t.linear_least_squares d = some (-(5 / 2), -(5 / 2), -1) ∧
      t.estimate_position minimize Real.sqrt d "multi"
        = t.nonlinear_optimization minimize Real.sqrt d (some (-(5 / 2), -(5 / 2), -1)) ∧
      t.estimate_position minimize Real.sqrt d "multi" = some ((5 / 2 : ℝ), 5 / 2, 1) ∧
      Trilateration.calculate_position_error Real.sqrt ((5 / 2 : ℝ), 5 / 2, 1)
        ((5 / 2 : ℝ), 5 / 2, 1) ≤ 1 / 1000000 := by
  subst ht
  subst hd
  rw [testDistances_eval] at hmin ⊢
  dsimp only at hmin ⊢
  have hnl : (Trilateration.mk
      [((0 : ℝ), 0, 0), (5, 0, 0), (5, 5, 0), (0, 5, 5 / 2)]).nonlinear_optimization
        minimize Real.sqrt
        [Real.sqrt (27 / 2), Real.sqrt (27 / 2), Real.sqrt (27 / 2), Real.sqrt (59 / 4)]
        (some (-(5 / 2), -(5 / 2), -1))
      = some ((minimize (objective Real.sqrt
          [((0 : ℝ), 0, 0), (5, 0, 0), (5, 5, 0), (0, 5, 5 / 2)]
          [Real.sqrt (27 / 2), Real.sqrt (27 / 2), Real.sqrt (27 / 2), Real.sqrt (59 / 4)])
          (-(5 / 2), -(5 / 2), -1)).x) := by
    unfold Trilateration.nonlinear_optimization
    rw [if_neg (by norm_num [Trilateration.num_anchors])]
    dsimp only
    rw [Option.getD_some, (hmin (-(5 / 2), -(5 / 2), -1)).1, if_pos rfl]
  have hpath : (Trilateration.mk
      [((0 : ℝ), 0, 0), (5, 0, 0), (5, 5, 0), (0, 5, 5 / 2)]).estimate_position
        minimize Real.sqrt
        [Real.sqrt (27 / 2), Real.sqrt (27 / 2), Real.sqrt (27 / 2), Real.sqrt (59 / 4)]
        "multi"
      = some ((minimize (objective Real.sqrt
          [((0 : ℝ), 0, 0), (5, 0, 0), (5, 5, 0), (0, 5, 5 / 2)]
          [Real.sqrt (27 / 2), Real.sqrt (27 / 2), Real.sqrt (27 / 2), Real.sqrt (59 / 4)])
          (-(5 / 2), -(5 / 2), -1)).x) := by
    rw [Trilateration.estimate_multi,
      Trilateration.multilateral_eq_of_lls _ _ _ _ _ lls_test_geometry, hnl]
  have hopt : (minimize (objective Real.sqrt
      [((0 : ℝ), 0, 0), (5, 0, 0), (5, 5, 0), (0, 5, 5 / 2)]
      [Real.sqrt (27 / 2), Real.sqrt (27 / 2), Real.sqrt (27 / 2), Real.sqrt (59 / 4)])
      (-(5 / 2), -(5 / 2), -1)).x = ((5 / 2 : ℝ), 5 / 2, 1) := by
    have hub := (hmin (-(5 / 2), -(5 / 2), -1)).2 ((5 / 2 : ℝ), 5 / 2, 1)
    have hz : objective Real.sqrt [((0 : ℝ), 0, 0), (5, 0, 0), (5, 5, 0), (0, 5, 5 / 2)]
        [Real.sqrt (27 / 2), Real.sqrt (27 / 2), Real.sqrt (27 / 2), Real.sqrt (59 / 4)]
        ((5 / 2 : ℝ), 5 / 2, 1) = 0 :=
      (objective_test_geometry_zero_iff _).mpr rfl
    have hnn := objective_nonneg Real.sqrt
      [((0 : ℝ), 0, 0), (5, 0, 0), (5, 5, 0), (0, 5, 5 / 2)]
      [Real.sqrt (27 / 2), Real.sqrt (27 / 2), Real.sqrt (27 / 2), Real.sqrt (59 / 4)]
      ((minimize (objective Real.sqrt
        [((0 : ℝ), 0, 0), (5, 0, 0), (5, 5, 0), (0, 5, 5 / 2)]
        [Real.sqrt (27 / 2), Real.sqrt (27 / 2), Real.sqrt (27 / 2), Real.sqrt (59 / 4)])
        (-(5 / 2), -(5 / 2), -1)).x)
    have hzero : objective Real.sqrt [((0 : ℝ), 0, 0), (5, 0, 0), (5, 5, 0), (0, 5, 5 / 2)]
        [Real.sqrt (27 / 2), Real.sqrt (27 / 2), Real.sqrt (27 / 2), Real.sqrt (59 / 4)]
        ((minimize (objective Real.sqrt
          [((0 : ℝ), 0, 0), (5, 0, 0), (5, 5, 0), (0, 5, 5 / 2)]
          [Real.sqrt (27 / 2), Real.sqrt (27 / 2), Real.sqrt (27 / 2), Real.sqrt (59 / 4)])
          (-(5 / 2), -(5 / 2), -1)).x) = 0 :=
      le_antisymm (le_of_le_of_eq hub hz) hnn
    exact (objective_test_geometry_zero_iff _).mp hzero
  refine ⟨lls_test_geometry, ?_, ?_, ?_⟩
  · rw [hpath, hnl]
  · rw [hpath, hopt]
  · have : Trilateration.calculate_position_error Real.sqrt ((5 / 2 : ℝ), 5 / 2, 1)
        ((5 / 2 : ℝ), 5 / 2, 1) = 0 := by
      norm_num [Trilateration.calculate_position_error, Real.sqrt_zero]
    rw [this]
    norm_num

set_option maxHeartbeats 1000000 in
/-- Witness for C7: the optimizer instantiated by the constant function
returning the true point, which converges and attains the global minimum
of the objective. -/
theorem Trilateration_noiseless_recovery_witness :
    (Trilateration.mk [((0 : ℝ), 0, 0), (5, 0, 0), (5, 5, 0), (0, 5, 5 / 2)]).estimate_position
        (fun _ _ => ⟨true, ((5 / 2 : ℝ), 5 / 2, 1)⟩) Real.sqrt
        ([((0 : ℝ), 0, 0), (5, 0, 0), (5, 5, 0), (0, 5, 5 / 2)].map (fun a =>
          Real.sqrt (((5 / 2 : ℝ) - a.1) ^ 2 + ((5 / 2 : ℝ) - a.2.1) ^ 2 +
            ((1 : ℝ) - a.2.2) ^ 2)))
        "multi" = some ((5 / 2 : ℝ), 5 / 2, 1) ∧
      Trilateration.calculate_position_error Real.sqrt ((5 / 2 : ℝ), 5 / 2, 1)
        ((5 / 2 : ℝ), 5 / 2, 1) ≤ 1 / 1000000 := by
  have h := Trilateration_noiseless_recovery (fun _ _ => ⟨true, ((5 / 2 : ℝ), 5 / 2, 1)⟩)
    (Trilateration.mk [((0 : ℝ), 0, 0), (5, 0, 0), (5, 5, 0), (0, 5, 5 / 2)])
    ([((0 : ℝ), 0, 0), (5, 0, 0), (5, 5, 0), (0, 5, 5 / 2)].map (fun a =>
      Real.sqrt (((5 / 2 : ℝ) - a.1) ^ 2 + ((5 / 2 : ℝ) - a.2.1) ^ 2 +
        ((1 : ℝ) - a.2.2) ^ 2)))
    rfl rfl ?_
  · exact ⟨h.2.2.1, h.2.2.2⟩
  · intro g
    refine ⟨rfl, fun p => ?_⟩
    dsimp only
    rw [testDistances_eval]
    have hz := (objective_test_geometry_zero_iff ((5 / 2 : ℝ), 5 / 2, 1)).mpr rfl
    rw [hz]
    exact objective_nonneg _ _ _ _

end Warehouse
